import Mathlib

/-
Verification of the exam-lockdown monitor hook (`useFullScreenExamSecurity`).

The embedding models the enhanced variant of the hook (the second function in
the first source file): the violation state machine `handleViolation` with its
reentrancy latch `isHandlingViolation`, the 500 ms latch-release timer, the
event-gateway dispatch installed by the `useEffect`, and the fullscreen
lifecycle functions `startExam` / `reEnterFullScreen`.  The variant of
`startExam` that performs the fullscreen request itself (third source file) is
embedded as `startExamWithFullscreen`.

Host callbacks are modelled by presence flags in the configuration together
with an observation log in the state: `warningLog` records the messages passed
to `onWarning`, `finishCalls` counts the invocations of `onFinishExam`; a
callback passed as `undefined` (optional chaining `?.` in the source) simply
leaves the log untouched.
-/

namespace ExamSecurity

/-- Hook configuration: `maxViolations` and whether the two host callbacks
were supplied (optional chaining makes them optional in the source). -/
structure Config where
  maxViolations : Int
  warningPresent : Bool
  finishPresent : Bool
deriving Repr, DecidableEq

/-- The mutable state of the hook: the `violations` counter (`-1` = exam not
started), the reentrancy latch `isHandlingViolation`, and the observation log
of host-callback invocations. -/
structure ExamState where
  violations : Int
  isHandlingViolation : Bool
  warningLog : List String
  finishCalls : Nat
deriving Repr, DecidableEq

/-- The non-final warning text built by `handleViolation`. -/
def warningMessage (reason : String) (newCount maxViolations : Int) : String :=
  "Warning: You attempted to leave the exam window (" ++ reason ++
    "). This is violation " ++ toString newCount ++ " of " ++
    toString maxViolations ++ "."

/-- The final-warning text built by `handleViolation` when the new count
equals `maxViolations`. -/
def finalWarningMessage (reason : String) : String :=
  "FINAL WARNING: You have attempted to leave the exam (" ++ reason ++
    "). One more violation will result in automatic submission."

/-- `handleViolation(reason)`: no-op when the latch is set; otherwise set the
latch, increment the counter, and either warn (count ≤ max, with the final
wording at count = max) or invoke `onFinishExam` (count > max). -/
def handleViolation (cfg : Config) (reason : String) (s : ExamState) :
    ExamState :=
  if s.isHandlingViolation then s
  else
    let newCount := s.violations + 1
    let s1 : ExamState :=
      { s with isHandlingViolation := true, violations := newCount }
    if newCount ≤ cfg.maxViolations then
      let message :=
        if newCount = cfg.maxViolations then finalWarningMessage reason
        else warningMessage reason newCount cfg.maxViolations
      if cfg.warningPresent then
        { s1 with warningLog := s1.warningLog ++ [message] }
      else s1
    else
      if cfg.finishPresent then { s1 with finishCalls := s1.finishCalls + 1 }
      else s1

/-- The body of the `setTimeout` scheduled by `handleViolation`: 500 ms later
the latch is cleared. -/
def releaseLatch (s : ExamState) : ExamState :=
  { s with isHandlingViolation := false }

/-- The state in which the hook is created: `useState(-1)`, latch clear. -/
def unstartedState : ExamState :=
  { violations := -1, isHandlingViolation := false, warningLog := [],
    finishCalls := 0 }

/-- `startExam` of the enhanced variant: the hook only arms the counter
(`setViolations(0)`); the component performs the fullscreen action. -/
def startExam (s : ExamState) : ExamState :=
  { s with violations := 0 }

/-- The state right after `startExam` on a fresh hook. -/
def activeStart : ExamState := startExam unstartedState

/-- A burst: violation signals delivered within one 500 ms window, so the
latch-release timer never fires in between. -/
def burst (cfg : Config) (reasons : List String) (s : ExamState) : ExamState :=
  reasons.foldl (fun t r => handleViolation cfg r t) s

/-- Spaced signals: each pair strictly more than 500 ms apart, so the
latch-release timer fires after every violation and before the next. -/
def spacedRun (cfg : Config) (reasons : List String) (s : ExamState) :
    ExamState :=
  reasons.foldl (fun t r => releaseLatch (handleViolation cfg r t)) s

/-- An event seen by the violation state machine: a violation signal or the
500 ms latch-release timer firing. -/
inductive Event
  | violationSignal (reason : String)
  | latchTimeout
deriving Repr, DecidableEq

/-- Run an arbitrary interleaving of violation signals and timer firings. -/
def runEvents (cfg : Config) (evs : List Event) (s : ExamState) : ExamState :=
  evs.foldl
    (fun t e =>
      match e with
      | Event.violationSignal r => handleViolation cfg r t
      | Event.latchTimeout => releaseLatch t)
    s

/-- Ambient browser state read by the handlers. -/
structure Env where
  documentHidden : Bool
  fullscreenElement : Bool
  outerWidth : Int
  innerWidth : Int
  outerHeight : Int
  innerHeight : Int
deriving Repr, DecidableEq

/-- The fields of a keyboard event that `handleKeyDown` reads. -/
structure KeyEvent where
  ctrlKey : Bool
  altKey : Bool
  shiftKey : Bool
  key : String
deriving Repr, DecidableEq

/-- `handleVisibilityChange`: count "switched tabs" when the document is
hidden. -/
def handleVisibilityChange (cfg : Config) (env : Env) (s : ExamState) :
    ExamState :=
  if env.documentHidden then handleViolation cfg "switched tabs" s else s

/-- `handleBlur`: count "switched window" only while the document is in
fullscreen. -/
def handleBlur (cfg : Config) (env : Env) (s : ExamState) : ExamState :=
  if env.fullscreenElement then handleViolation cfg "switched window" s else s

/-- `handleFullScreenChange`: count "exited fullscreen" when the fullscreen
element is gone. -/
def handleFullScreenChange (cfg : Config) (env : Env) (s : ExamState) :
    ExamState :=
  if !env.fullscreenElement then handleViolation cfg "exited fullscreen" s
  else s

/-- `handleKeyDown`: three sequential checks, each default-preventing and
forwarding a chord-specific reason.  The boolean returned records whether any
of them called `preventDefault`. -/
def handleKeyDown (cfg : Config) (e : KeyEvent) (s : ExamState) :
    ExamState × Bool :=
  let hit1 := e.ctrlKey &&
    ["t", "n", "w", "p", "s", "o", "u"].contains e.key.toLower
  let s1 := if hit1 then handleViolation cfg "used a restricted shortcut" s
    else s
  let hit2 := (e.ctrlKey || e.altKey) && e.key == "Tab"
  let s2 := if hit2 then handleViolation cfg "tried to switch tabs/windows" s1
    else s1
  let hit3 := e.key == "F12" ||
    (e.ctrlKey && e.shiftKey && ["i", "j", "c"].contains e.key.toLower)
  let s3 := if hit3 then handleViolation cfg "tried to open developer tools" s2
    else s2
  (s3, hit1 || hit2 || hit3)

/-- `checkDevTools`: the 1-second interval body; a window/viewport gap above
160 px on either axis is treated as "developer tools opened". -/
def checkDevTools (cfg : Config) (env : Env) (s : ExamState) : ExamState :=
  if env.outerWidth - env.innerWidth > 160 ||
      env.outerHeight - env.innerHeight > 160 then
    if !s.isHandlingViolation then
      handleViolation cfg "developer tools opened" s
    else s
  else s

/-- The guard of the `useEffect`: listeners are installed unless security is
disabled, the exam has not started, or final submission is in progress. -/
def monitoringEligible (isSecurityEnabled isFinalSubmission : Bool)
    (violations : Int) : Bool :=
  !(!isSecurityEnabled || violations == -1 || isFinalSubmission)

/-- The event names registered by the `useEffect` when it subscribes. -/
def subscriptionEvents : List String :=
  ["visibilitychange", "blur", "fullscreenchange", "keydown", "contextmenu",
   "dragstart", "selectstart", "copy", "paste", "cut"]

/-- The subscription set: the full listener set while monitoring-eligible,
empty otherwise (registration and teardown are atomic in the effect). -/
def subscriptions (isSecurityEnabled isFinalSubmission : Bool)
    (violations : Int) : List String :=
  if monitoringEligible isSecurityEnabled isFinalSubmission violations then
    subscriptionEvents
  else []

/-- A raw browser signal that the gateway may observe. -/
inductive Signal
  | visibilitychange
  | blur
  | fullscreenchange
  | keydown (e : KeyEvent)
  | contextmenu
  | dragstart
  | selectstart
  | copy
  | paste
  | cut
  | devToolsTick
deriving Repr, DecidableEq

/-- Outcome of delivering one signal: the new hook state, whether the event's
default action was prevented, and the inline notices (alerts) shown. -/
structure DispatchResult where
  state : ExamState
  prevented : Bool
  alerts : List String
deriving Repr, DecidableEq

/-- The inline notice shown by `preventClipboardAction` for event type `ty`. -/
def clipboardAlert (ty : String) : String :=
  "The \"" ++ ty ++ "\" action is disabled during the exam."

/-- Deliver one browser signal.  When monitoring is not eligible no listener
exists, so nothing happens; otherwise the signal runs the handler the
`useEffect` registered for it. -/
def dispatch (cfg : Config) (isSecurityEnabled isFinalSubmission : Bool)
    (env : Env) (sig : Signal) (s : ExamState) : DispatchResult :=
  if monitoringEligible isSecurityEnabled isFinalSubmission s.violations then
    match sig with
    | Signal.visibilitychange => ⟨handleVisibilityChange cfg env s, false, []⟩
    | Signal.blur => ⟨handleBlur cfg env s, false, []⟩
    | Signal.fullscreenchange => ⟨handleFullScreenChange cfg env s, false, []⟩
    | Signal.keydown e =>
        ⟨(handleKeyDown cfg e s).1, (handleKeyDown cfg e s).2, []⟩
    | Signal.contextmenu => ⟨s, true, []⟩
    | Signal.dragstart => ⟨s, true, []⟩
    | Signal.selectstart => ⟨s, true, []⟩
    | Signal.copy => ⟨s, true, [clipboardAlert "copy"]⟩
    | Signal.paste => ⟨s, true, [clipboardAlert "paste"]⟩
    | Signal.cut => ⟨s, true, [clipboardAlert "cut"]⟩
    | Signal.devToolsTick => ⟨checkDevTools cfg env s, false, []⟩
  else ⟨s, false, []⟩

/-- Resolution of the asynchronous `requestFullscreen` call. -/
inductive FullscreenOutcome
  | resolved
  | rejected
deriving Repr, DecidableEq

/-- Result of the fused `startExam` of the toggleable variant: the new state,
the returned boolean, and the alerts shown. -/
structure StartExamResult where
  state : ExamState
  returned : Bool
  alerts : List String
deriving Repr, DecidableEq

/-- `startExam` of the toggleable variant: with security enabled, request
fullscreen and only advance to ACTIVE on success; a rejected request shows a
blocking alert, leaves the state unchanged and returns `false`.  With security
disabled, advance immediately. -/
def startExamWithFullscreen (isSecurityEnabled : Bool)
    (fs : FullscreenOutcome) (s : ExamState) : StartExamResult :=
  if isSecurityEnabled then
    match fs with
    | FullscreenOutcome.resolved => ⟨{ s with violations := 0 }, true, []⟩
    | FullscreenOutcome.rejected =>
        ⟨s, false,
         ["Fullscreen mode is required for this exam. Please allow it and try again."]⟩
  else ⟨{ s with violations := 0 }, true, []⟩

/-- Result of `reEnterFullScreen`: whether `requestFullscreen` was called,
how many times `onFinishExam` was invoked, and whether an exception escaped
to the caller. -/
structure ReEnterResult where
  requested : Bool
  finishCalls : Nat
  threw : Bool
deriving Repr, DecidableEq

/-- `reEnterFullScreen`: request fullscreen again only when security is
enabled and the document is not fullscreen; a rejected request is caught and
`onFinishExam?.()` is invoked. -/
def reEnterFullScreen (isSecurityEnabled finishPresent isFullscreen : Bool)
    (fs : FullscreenOutcome) : ReEnterResult :=
  if isSecurityEnabled && !isFullscreen then
    match fs with
    | FullscreenOutcome.resolved => ⟨true, 0, false⟩
    | FullscreenOutcome.rejected => ⟨true, if finishPresent then 1 else 0, false⟩
  else ⟨false, 0, false⟩

-- ### Basic facts about a single `handleViolation` step

theorem handleViolation_latched (cfg : Config) (r : String) (s : ExamState)
    (h : s.isHandlingViolation = true) : handleViolation cfg r s = s := by
  simp [handleViolation, h]

theorem handleViolation_latch_after (cfg : Config) (r : String)
    (s : ExamState) : (handleViolation cfg r s).isHandlingViolation = true := by
  unfold handleViolation
  by_cases h : s.isHandlingViolation
  · simp [h]
  · simp only [h, Bool.false_eq_true, if_false]
    split
    · split <;> rfl
    · split <;> rfl

theorem handleViolation_violations (cfg : Config) (r : String) (s : ExamState)
    (h : s.isHandlingViolation = false) :
    (handleViolation cfg r s).violations = s.violations + 1 := by
  unfold handleViolation
  simp only [h, Bool.false_eq_true, if_false]
  split
  · split <;> rfl
  · split <;> rfl

theorem handleViolation_warn_lt (cfg : Config) (r : String) (s : ExamState)
    (h : s.isHandlingViolation = false) (hw : cfg.warningPresent = true)
    (hlt : s.violations + 1 < cfg.maxViolations) :
    (handleViolation cfg r s).warningLog =
      s.warningLog ++ [warningMessage r (s.violations + 1) cfg.maxViolations] ∧
    (handleViolation cfg r s).finishCalls = s.finishCalls := by
  unfold handleViolation
  simp only [h, Bool.false_eq_true, if_false]
  have h1 : s.violations + 1 ≤ cfg.maxViolations := le_of_lt hlt
  have h2 : ¬ (s.violations + 1 = cfg.maxViolations) := ne_of_lt hlt
  simp [h1, h2, hw]

theorem handleViolation_warn_eq (cfg : Config) (r : String) (s : ExamState)
    (h : s.isHandlingViolation = false) (hw : cfg.warningPresent = true)
    (heq : s.violations + 1 = cfg.maxViolations) :
    (handleViolation cfg r s).warningLog =
      s.warningLog ++ [finalWarningMessage r] ∧
    (handleViolation cfg r s).finishCalls = s.finishCalls := by
  unfold handleViolation
  simp only [h, Bool.false_eq_true, if_false]
  simp [le_of_eq heq, heq, hw]

theorem handleViolation_finish_gt (cfg : Config) (r : String) (s : ExamState)
    (h : s.isHandlingViolation = false) (hf : cfg.finishPresent = true)
    (hgt : cfg.maxViolations < s.violations + 1) :
    (handleViolation cfg r s).finishCalls = s.finishCalls + 1 ∧
    (handleViolation cfg r s).warningLog = s.warningLog := by
  unfold handleViolation
  simp only [h, Bool.false_eq_true, if_false]
  have h1 : ¬ (s.violations + 1 ≤ cfg.maxViolations) := not_le_of_lt hgt
  simp [h1, hf]

-- ### Burst behaviour (all signals inside one 500 ms window)

theorem burst_latched (cfg : Config) (reasons : List String) (s : ExamState)
    (h : s.isHandlingViolation = true) : burst cfg reasons s = s := by
  induction reasons with
  | nil => rfl
  | cons r rs ih =>
      simp only [burst, List.foldl_cons] at *
      rw [handleViolation_latched cfg r s h, ih]

theorem burst_cons (cfg : Config) (r : String) (rs : List String)
    (s : ExamState) :
    burst cfg (r :: rs) s = burst cfg rs (handleViolation cfg r s) := rfl

-- ### Spaced behaviour (each signal in its own 500 ms window)

theorem spacedRun_cons (cfg : Config) (r : String) (rs : List String)
    (s : ExamState) :
    spacedRun cfg (r :: rs) s =
      spacedRun cfg rs (releaseLatch (handleViolation cfg r s)) := rfl

theorem spacedRun_violations (cfg : Config) (reasons : List String) :
    ∀ s : ExamState, s.isHandlingViolation = false →
      (spacedRun cfg reasons s).violations = s.violations + reasons.length := by
  induction reasons with
  | nil => intro s _; simp [spacedRun]
  | cons r rs ih =>
      intro s h
      rw [spacedRun_cons, ih (releaseLatch (handleViolation cfg r s)) rfl]
      simp [releaseLatch, handleViolation_violations cfg r s h]
      ring

/-- `finishCalls` is untouched by a warning step, whether or not the warning
callback is present. -/
theorem handleViolation_finishCalls_le (cfg : Config) (r : String)
    (s : ExamState) (h : s.isHandlingViolation = false)
    (hle : s.violations + 1 ≤ cfg.maxViolations) :
    (handleViolation cfg r s).finishCalls = s.finishCalls := by
  unfold handleViolation
  simp only [h, Bool.false_eq_true, if_false]
  simp only [hle, if_true]
  split <;> rfl

/-- `warningLog` is untouched by a terminating step, whether or not the
finish callback is present. -/
theorem handleViolation_warningLog_gt (cfg : Config) (r : String)
    (s : ExamState) (h : s.isHandlingViolation = false)
    (hgt : cfg.maxViolations < s.violations + 1) :
    (handleViolation cfg r s).warningLog = s.warningLog := by
  unfold handleViolation
  simp only [h, Bool.false_eq_true, if_false]
  simp only [not_le.mpr hgt, if_false]
  split <;> rfl

/-- Gain of `finishCalls` in one latch-free step, as an `if`. -/
theorem handleViolation_finishCalls_step (cfg : Config) (r : String)
    (s : ExamState) (h : s.isHandlingViolation = false)
    (hf : cfg.finishPresent = true) :
    (handleViolation cfg r s).finishCalls =
      s.finishCalls +
        (if cfg.maxViolations < s.violations + 1 then 1 else 0) := by
  by_cases hgt : cfg.maxViolations < s.violations + 1
  · simp [hgt, (handleViolation_finish_gt cfg r s h hf hgt).1]
  · simp [hgt, handleViolation_finishCalls_le cfg r s h (not_lt.mp hgt)]

theorem spacedRun_finishCalls (cfg : Config) (hf : cfg.finishPresent = true)
    (reasons : List String) :
    ∀ s : ExamState, s.isHandlingViolation = false →
      (spacedRun cfg reasons s).finishCalls =
        s.finishCalls +
          ((s.violations + reasons.length - cfg.maxViolations).toNat -
            (s.violations - cfg.maxViolations).toNat) := by
  induction reasons with
  | nil => intro s _; simp [spacedRun]
  | cons r rs ih =>
      intro s h
      rw [spacedRun_cons, ih (releaseLatch (handleViolation cfg r s)) rfl]
      simp only [releaseLatch]
      rw [handleViolation_finishCalls_step cfg r s h hf,
        handleViolation_violations cfg r s h]
      simp only [List.length_cons]
      split <;> omega

/-- The messages one latch-free step at previous count `newCount - 1` appends
to the warning log (empty once the counter passes `maxViolations`). -/
def stepMessages (cfg : Config) (newCount : Int) (reason : String) :
    List String :=
  if newCount ≤ cfg.maxViolations then
    [if newCount = cfg.maxViolations then finalWarningMessage reason
     else warningMessage reason newCount cfg.maxViolations]
  else []

/-- The warning messages produced by a spaced run of `reasons` starting from
counter value `v`. -/
def expectedLog (cfg : Config) (v : Int) : List String → List String
  | [] => []
  | r :: rs => stepMessages cfg (v + 1) r ++ expectedLog cfg (v + 1) rs

theorem handleViolation_warningLog_free (cfg : Config) (r : String)
    (s : ExamState) (h : s.isHandlingViolation = false)
    (hw : cfg.warningPresent = true) :
    (handleViolation cfg r s).warningLog =
      s.warningLog ++ stepMessages cfg (s.violations + 1) r := by
  by_cases hle : s.violations + 1 ≤ cfg.maxViolations
  · rcases lt_or_eq_of_le hle with hlt | heq
    · rw [(handleViolation_warn_lt cfg r s h hw hlt).1]
      simp [stepMessages, hle, ne_of_lt hlt]
    · rw [(handleViolation_warn_eq cfg r s h hw heq).1]
      simp [stepMessages, hle, heq]
  · rw [handleViolation_warningLog_gt cfg r s h (not_le.mp hle)]
    simp [stepMessages, hle]

theorem spacedRun_warningLog (cfg : Config) (hw : cfg.warningPresent = true)
    (reasons : List String) :
    ∀ s : ExamState, s.isHandlingViolation = false →
      (spacedRun cfg reasons s).warningLog =
        s.warningLog ++ expectedLog cfg s.violations reasons := by
  induction reasons with
  | nil => intro s _; simp [spacedRun, expectedLog]
  | cons r rs ih =>
      intro s h
      rw [spacedRun_cons, ih (releaseLatch (handleViolation cfg r s)) rfl]
      simp only [releaseLatch, expectedLog]
      rw [handleViolation_warningLog_free cfg r s h hw,
        handleViolation_violations cfg r s h, List.append_assoc]

theorem expectedLog_length_of_le (cfg : Config) (reasons : List String) :
    ∀ v : Int, v + reasons.length ≤ cfg.maxViolations →
      (expectedLog cfg v reasons).length = reasons.length := by
  induction reasons with
  | nil => intro v _; rfl
  | cons r rs ih =>
      intro v hle
      simp only [List.length_cons] at hle
      have h1 : v + 1 ≤ cfg.maxViolations := by omega
      simp only [expectedLog, List.length_append, stepMessages, h1, if_true,
        List.length_cons, List.length_nil, ih (v + 1) (by omega)]
      omega

theorem expectedLog_getLast (cfg : Config) (reasons : List String) :
    ∀ v : Int, 1 ≤ reasons.length → v + reasons.length = cfg.maxViolations →
      (expectedLog cfg v reasons).getLast? =
        reasons.getLast?.map finalWarningMessage := by
  induction reasons with
  | nil => intro v h _; simp at h
  | cons r rs ih =>
      intro v _ heq
      cases rs with
      | nil =>
          simp only [List.length_cons, List.length_nil] at heq
          have h1 : v + 1 = cfg.maxViolations := by omega
          simp [expectedLog, stepMessages, le_of_eq h1, h1]
      | cons r2 rs2 =>
          have hlen : 1 ≤ (r2 :: rs2).length := by simp
          have heq2 : (v + 1) + ((r2 :: rs2).length : Int) =
              cfg.maxViolations := by
            simp only [List.length_cons] at heq ⊢
            push_cast at heq ⊢
            omega
          have hne : expectedLog cfg (v + 1) (r2 :: rs2) ≠ [] := by
            have := expectedLog_length_of_le cfg (r2 :: rs2) (v + 1)
              (le_of_eq heq2)
            intro hnil
            rw [hnil] at this
            simp at this
          show (stepMessages cfg (v + 1) r ++
              expectedLog cfg (v + 1) (r2 :: rs2)).getLast? = _
          rw [List.getLast?_append_of_ne_nil _ hne, ih (v + 1) hlen heq2]
          have : (r :: r2 :: rs2).getLast? = (r2 :: rs2).getLast? := by
            simp [List.getLast?]
          rw [this]

-- ### No warning is ever emitted once the counter has reached the maximum

theorem handleViolation_terminal (cfg : Config) (r : String) (s : ExamState)
    (ht : cfg.maxViolations ≤ s.violations) :
    (handleViolation cfg r s).warningLog = s.warningLog ∧
    cfg.maxViolations ≤ (handleViolation cfg r s).violations := by
  by_cases h : s.isHandlingViolation
  · rw [handleViolation_latched cfg r s h]
    exact ⟨rfl, ht⟩
  · have h' : s.isHandlingViolation = false := by simpa using h
    refine ⟨handleViolation_warningLog_gt cfg r s h' (by omega), ?_⟩
    rw [handleViolation_violations cfg r s h']
    omega

theorem runEvents_terminal (cfg : Config) (evs : List Event) :
    ∀ s : ExamState, cfg.maxViolations ≤ s.violations →
      (runEvents cfg evs s).warningLog = s.warningLog := by
  induction evs with
  | nil => intro s _; rfl
  | cons e es ih =>
      intro s ht
      cases e with
      | violationSignal r =>
          have step := handleViolation_terminal cfg r s ht
          calc (runEvents cfg (Event.violationSignal r :: es) s).warningLog
              = (runEvents cfg es (handleViolation cfg r s)).warningLog := rfl
            _ = (handleViolation cfg r s).warningLog :=
                ih (handleViolation cfg r s) step.2
            _ = s.warningLog := step.1
      | latchTimeout =>
          calc (runEvents cfg (Event.latchTimeout :: es) s).warningLog
              = (runEvents cfg es (releaseLatch s)).warningLog := rfl
            _ = (releaseLatch s).warningLog := ih (releaseLatch s) ht
            _ = s.warningLog := rfl

/-- A monitoring-eligible state is exactly: security on, exam started, not in
final submission (started = counter not `-1`; with counter ≥ -1 this is
counter ≥ 0). -/
theorem monitoringEligible_iff (sec final : Bool) (v : Int) (hv : -1 ≤ v) :
    monitoringEligible sec final v = true ↔
      (0 ≤ v ∧ sec = true ∧ final = false) := by
  cases sec <;> cases final <;> simp [monitoringEligible]
  all_goals omega

/-- A fixed ambient-environment value used in concrete instantiations:
document visible, document in fullscreen, no window/viewport gap. -/
def sampleEnv : Env :=
  { documentHidden := false, fullscreenElement := true, outerWidth := 0,
    innerWidth := 0, outerHeight := 0, innerHeight := 0 }

-- ### Claim theorems

/-- Claim C1 (counterexample): the termination callback is NOT invoked
exactly once over the whole session.  With `maxViolations = 1` and three
spaced violations, each passing the reentrancy guard, `onFinishExam` is
invoked twice. -/
theorem claim_C1_counterexample :
    (spacedRun ⟨1, true, true⟩ ["a", "b", "c"] activeStart).finishCalls = 2 ∧
    (2 : Nat) ≠ 1 := by
  decide

/-- Claim C1 (amended): for every call to the violation handler that passes
the reentrancy guard, with n = the new count: if n < maxViolations the
warning callback receives the WARNING message; if n = maxViolations it
receives the FINAL_WARNING message; if n > maxViolations the termination
callback is invoked exactly once for that call, and no warning is emitted for
that violation or any subsequent one (but the termination callback is invoked
again on each later over-max violation that passes the guard). -/
theorem claim_C1_amended (cfg : Config) (hw : cfg.warningPresent = true)
    (hf : cfg.finishPresent = true) (s : ExamState) (r : String)
    (h : s.isHandlingViolation = false) :
    (handleViolation cfg r s).violations = s.violations + 1 ∧
    (s.violations + 1 < cfg.maxViolations →
      (handleViolation cfg r s).warningLog =
        s.warningLog ++
          [warningMessage r (s.violations + 1) cfg.maxViolations] ∧
      (handleViolation cfg r s).finishCalls = s.finishCalls) ∧
    (s.violations + 1 = cfg.maxViolations →
      (handleViolation cfg r s).warningLog =
        s.warningLog ++ [finalWarningMessage r] ∧
      (handleViolation cfg r s).finishCalls = s.finishCalls) ∧
    (cfg.maxViolations < s.violations + 1 →
      (handleViolation cfg r s).finishCalls = s.finishCalls + 1 ∧
      (handleViolation cfg r s).warningLog = s.warningLog) ∧
    (cfg.maxViolations ≤ s.violations → ∀ evs : List Event,
      (runEvents cfg evs (handleViolation cfg r s)).warningLog =
        s.warningLog) := by
  refine ⟨handleViolation_violations cfg r s h,
    fun hlt => handleViolation_warn_lt cfg r s h hw hlt,
    fun heq => handleViolation_warn_eq cfg r s h hw heq,
    fun hgt => handleViolation_finish_gt cfg r s h hf hgt,
    fun ht evs => ?_⟩
  have step := handleViolation_terminal cfg r s ht
  rw [runEvents_terminal cfg evs (handleViolation cfg r s) step.2, step.1]

/-- Claim C1 (witness for the amended theorem), at `maxViolations = 3` and a
state with 3 prior violations. -/
theorem claim_C1_amended_witness :
    (handleViolation ⟨3, true, true⟩ "x" ⟨3, false, [], 1⟩).violations =
      (3 : Int) + 1 ∧
    ((3 : Int) + 1 < 3 →
      (handleViolation ⟨3, true, true⟩ "x" ⟨3, false, [], 1⟩).warningLog =
        [] ++ [warningMessage "x" (3 + 1) 3] ∧
      (handleViolation ⟨3, true, true⟩ "x" ⟨3, false, [], 1⟩).finishCalls =
        1) ∧
    ((3 : Int) + 1 = 3 →
      (handleViolation ⟨3, true, true⟩ "x" ⟨3, false, [], 1⟩).warningLog =
        [] ++ [finalWarningMessage "x"] ∧
      (handleViolation ⟨3, true, true⟩ "x" ⟨3, false, [], 1⟩).finishCalls =
        1) ∧
    ((3 : Int) < 3 + 1 →
      (handleViolation ⟨3, true, true⟩ "x" ⟨3, false, [], 1⟩).finishCalls =
        1 + 1 ∧
      (handleViolation ⟨3, true, true⟩ "x" ⟨3, false, [], 1⟩).warningLog =
        []) ∧
    ((3 : Int) ≤ 3 → ∀ evs : List Event,
      (runEvents ⟨3, true, true⟩ evs
        (handleViolation ⟨3, true, true⟩ "x" ⟨3, false, [], 1⟩)).warningLog =
        []) :=
  claim_C1_amended ⟨3, true, true⟩ rfl rfl ⟨3, false, [], 1⟩ "x" rfl

/-- Claim C2: within a single 500 ms cool-down window (no latch-release in
between), any non-empty burst of violation signals increments `violations` by
exactly 1; the latch is set on entry and is cleared by the timer. -/
theorem claim_C2_burst_counts_once (cfg : Config) (s : ExamState)
    (h : s.isHandlingViolation = false) (reasons : List String)
    (hne : reasons ≠ []) :
    (burst cfg reasons s).violations = s.violations + 1 ∧
    (burst cfg reasons s).isHandlingViolation = true ∧
    (releaseLatch (burst cfg reasons s)).isHandlingViolation = false := by
  cases reasons with
  | nil => exact absurd rfl hne
  | cons r rs =>
      rw [burst_cons]
      have hl : (handleViolation cfg r s).isHandlingViolation = true :=
        handleViolation_latch_after cfg r s
      rw [burst_latched cfg rs _ hl]
      exact ⟨handleViolation_violations cfg r s h, hl, rfl⟩

/-- Claim C2 (witness): 10 signals in one window increment the counter by 1,
not 10. -/
theorem claim_C2_burst_counts_once_witness :
    (burst ⟨3, true, true⟩
        ["a", "b", "c", "d", "e", "f", "g", "h", "i", "j"]
        activeStart).violations = activeStart.violations + 1 ∧
    (burst ⟨3, true, true⟩
        ["a", "b", "c", "d", "e", "f", "g", "h", "i", "j"]
        activeStart).isHandlingViolation = true ∧
    (releaseLatch (burst ⟨3, true, true⟩
        ["a", "b", "c", "d", "e", "f", "g", "h", "i", "j"]
        activeStart)).isHandlingViolation = false :=
  claim_C2_burst_counts_once ⟨3, true, true⟩ activeStart rfl
    ["a", "b", "c", "d", "e", "f", "g", "h", "i", "j"] (by decide)

/-- Claim C3 (counterexample): after k = 1 spaced violation the counter is 1,
not k - 1 = 0, refuting the stated formula `violations = k - 1`. -/
theorem claim_C3_counterexample :
    (spacedRun ⟨3, true, true⟩ ["switched tabs"] activeStart).violations =
      1 ∧ (1 : Int) ≠ 1 - 1 := by
  decide

/-- Claim C3 (amended): after startExam `violations = 0`; after k violation
signals spaced strictly more than 500 ms apart `violations = k` (not k - 1);
after `maxViolations` signals `onFinishExam` has not fired and the last
message is the FINAL_WARNING variant; after `maxViolations + 1` signals
`onFinishExam` has fired exactly once. -/
theorem claim_C3_amended (cfg : Config) (hw : cfg.warningPresent = true)
    (hf : cfg.finishPresent = true) (hm : 1 ≤ cfg.maxViolations)
    (reasons : List String) :
    activeStart.violations = 0 ∧
    (spacedRun cfg reasons activeStart).violations = reasons.length ∧
    ((reasons.length : Int) = cfg.maxViolations →
      (spacedRun cfg reasons activeStart).finishCalls = 0 ∧
      (spacedRun cfg reasons activeStart).warningLog.getLast? =
        reasons.getLast?.map finalWarningMessage) ∧
    ((reasons.length : Int) = cfg.maxViolations + 1 →
      (spacedRun cfg reasons activeStart).finishCalls = 1) := by
  have hviol := spacedRun_violations cfg reasons activeStart rfl
  have hfin := spacedRun_finishCalls cfg hf reasons activeStart rfl
  have hlog := spacedRun_warningLog cfg hw reasons activeStart rfl
  have hv0 : activeStart.violations = 0 := rfl
  have hf0 : activeStart.finishCalls = 0 := rfl
  refine ⟨rfl, by rw [hviol, hv0, zero_add], fun hk => ⟨?_, ?_⟩, fun hk => ?_⟩
  · rw [hfin, hv0, hf0]
    omega
  · rw [hlog]
    have : activeStart.warningLog = [] := rfl
    rw [this, List.nil_append, hv0]
    exact expectedLog_getLast cfg reasons 0 (by omega) (by omega)
  · rw [hfin, hv0, hf0]
    omega

/-- Claim C3 (witness for the amended theorem): the spec scenario with
`maxViolations = 3` and the three named reasons. -/
theorem claim_C3_amended_witness :
    activeStart.violations = 0 ∧
    (spacedRun ⟨3, true, true⟩
        ["switched tabs", "exited fullscreen", "used a restricted shortcut"]
        activeStart).violations =
      (["switched tabs", "exited fullscreen",
        "used a restricted shortcut"] : List String).length ∧
    (((["switched tabs", "exited fullscreen",
        "used a restricted shortcut"] : List String).length : Int) = 3 →
      (spacedRun ⟨3, true, true⟩
          ["switched tabs", "exited fullscreen", "used a restricted shortcut"]
          activeStart).finishCalls = 0 ∧
      (spacedRun ⟨3, true, true⟩
          ["switched tabs", "exited fullscreen", "used a restricted shortcut"]
          activeStart).warningLog.getLast? =
        (["switched tabs", "exited fullscreen",
          "used a restricted shortcut"] : List String).getLast?.map
            finalWarningMessage) ∧
    (((["switched tabs", "exited fullscreen",
        "used a restricted shortcut"] : List String).length : Int) = 3 + 1 →
      (spacedRun ⟨3, true, true⟩
          ["switched tabs", "exited fullscreen", "used a restricted shortcut"]
          activeStart).finishCalls = 1) :=
  claim_C3_amended ⟨3, true, true⟩ rfl rfl (by decide)
    ["switched tabs", "exited fullscreen", "used a restricted shortcut"]

/-- Claim C4 (counterexample): calling `startExam` in an ACTIVE state with
2 violations resets the counter to 0 — observable state changes, so the call
is not a no-op. -/
theorem claim_C4_counterexample :
    0 ≤ (ExamState.mk 2 false [] 0).violations ∧
    (startExam (ExamState.mk 2 false [] 0)).violations = 0 ∧
    (startExam (ExamState.mk 2 false [] 0)).violations ≠
      (ExamState.mk 2 false [] 0).violations := by
  decide

/-- Claim C4 (amended): `startExam` always sets `violations` to 0 and changes
nothing else; while ACTIVE it therefore re-arms the counter rather than being
a no-op, and it is a no-op only when the counter is already 0. -/
theorem claim_C4_amended (s : ExamState) :
    (startExam s).violations = 0 ∧
    (startExam s).isHandlingViolation = s.isHandlingViolation ∧
    (startExam s).warningLog = s.warningLog ∧
    (startExam s).finishCalls = s.finishCalls ∧
    (s.violations = 0 → startExam s = s) := by
  refine ⟨rfl, rfl, rfl, rfl, fun h => ?_⟩
  cases s
  simp_all [startExam]

/-- Claim C4 (witness for the amended theorem), at the state right after a
first `startExam`. -/
theorem claim_C4_amended_witness :
    (startExam activeStart).violations = 0 ∧
    (startExam activeStart).isHandlingViolation =
      activeStart.isHandlingViolation ∧
    (startExam activeStart).warningLog = activeStart.warningLog ∧
    (startExam activeStart).finishCalls = activeStart.finishCalls ∧
    (activeStart.violations = 0 → startExam activeStart = activeStart) :=
  claim_C4_amended activeStart

/-- Claim C5: the subscription set is non-empty iff the session is ACTIVE
(counter ≥ 0), security is enabled and final submission is off; and whenever
security is off or final submission is on, delivering any monitored signal
leaves the state unchanged (zero `onWarning`/`onFinishExam` calls), prevents
nothing and shows no notice. -/
theorem claim_C5_subscriptions (sec final : Bool) (s : ExamState)
    (hv : -1 ≤ s.violations) (cfg : Config) (env : Env) (sig : Signal) :
    (subscriptions sec final s.violations ≠ [] ↔
      (0 ≤ s.violations ∧ sec = true ∧ final = false)) ∧
    ((sec = false ∨ final = true) →
      dispatch cfg sec final env sig s = ⟨s, false, []⟩) := by
  constructor
  · rw [← monitoringEligible_iff sec final s.violations hv]
    unfold subscriptions
    by_cases h : monitoringEligible sec final s.violations = true
    · simp [h, subscriptionEvents]
    · simp [h]
  · intro hoff
    have h : monitoringEligible sec final s.violations = false := by
      rcases hoff with h1 | h1 <;> subst h1 <;>
        simp [monitoringEligible]
    unfold dispatch
    rw [h]
    simp

/-- Claim C5 (witness): the exam-started state, first with security enabled
and no final submission (subscription set non-empty), then with security
disabled (every signal a no-op). -/
theorem claim_C5_subscriptions_witness :
    ((subscriptions true false activeStart.violations ≠ [] ↔
        (0 ≤ activeStart.violations ∧ true = true ∧ false = false)) ∧
      ((true = false ∨ false = true) →
        dispatch ⟨3, true, true⟩ true false sampleEnv Signal.blur
          activeStart = ⟨activeStart, false, []⟩)) ∧
    ((subscriptions false false activeStart.violations ≠ [] ↔
        (0 ≤ activeStart.violations ∧ false = true ∧ false = false)) ∧
      ((false = false ∨ false = true) →
        dispatch ⟨3, true, true⟩ false false sampleEnv Signal.blur
          activeStart = ⟨activeStart, false, []⟩)) :=
  ⟨claim_C5_subscriptions true false activeStart (by decide) ⟨3, true, true⟩
      sampleEnv Signal.blur,
    claim_C5_subscriptions false false activeStart (by decide) ⟨3, true, true⟩
      sampleEnv Signal.blur⟩

/-- Claim C6: `reEnterFullScreen` with the document already fullscreen is a
no-op (no request, no callback, no exception); and when the request is made
and rejected, `onFinishExam` is invoked exactly once for that call and no
exception propagates to the caller. -/
theorem claim_C6_reEnterFullScreen (sec isFs : Bool) (fs : FullscreenOutcome)
    (hreq : (reEnterFullScreen sec true isFs fs).requested = true)
    (hrej : fs = FullscreenOutcome.rejected) :
    reEnterFullScreen sec true true fs = ⟨false, 0, false⟩ ∧
    reEnterFullScreen sec true isFs fs = ⟨true, 1, false⟩ := by
  subst hrej
  cases sec <;> cases isFs <;>
    simp_all [reEnterFullScreen]

/-- Claim C6 (witness): security on, not fullscreen, request rejected. -/
theorem claim_C6_reEnterFullScreen_witness :
    reEnterFullScreen true true true FullscreenOutcome.rejected =
      ⟨false, 0, false⟩ ∧
    reEnterFullScreen true true false FullscreenOutcome.rejected =
      ⟨true, 1, false⟩ :=
  claim_C6_reEnterFullScreen true false FullscreenOutcome.rejected
    (by decide) rfl

/-- Claim C7: `startExam` (fused variant) with security enabled and the
fullscreen request rejected shows the blocking notice, does not advance the
session (`violations` stays -1), returns false, and a retry that succeeds
starts the exam (`violations = 0`, returns true). -/
theorem claim_C7_startExam_rejected (s : ExamState)
    (h : s.violations = -1) :
    (startExamWithFullscreen true FullscreenOutcome.rejected s).alerts =
      ["Fullscreen mode is required for this exam. Please allow it and try again."] ∧
    (startExamWithFullscreen true FullscreenOutcome.rejected s).returned =
      false ∧
    (startExamWithFullscreen true FullscreenOutcome.rejected s).state = s ∧
    (startExamWithFullscreen true FullscreenOutcome.rejected
      s).state.violations = -1 ∧
    (startExamWithFullscreen true FullscreenOutcome.resolved
      ((startExamWithFullscreen true FullscreenOutcome.rejected
        s).state)).state.violations = 0 ∧
    (startExamWithFullscreen true FullscreenOutcome.resolved
      ((startExamWithFullscreen true FullscreenOutcome.rejected
        s).state)).returned = true :=
  ⟨rfl, rfl, rfl, h, rfl, rfl⟩

/-- Claim C7 (witness): the fresh, unstarted hook state. -/
theorem claim_C7_startExam_rejected_witness :
    (startExamWithFullscreen true FullscreenOutcome.rejected
      unstartedState).alerts =
      ["Fullscreen mode is required for this exam. Please allow it and try again."] ∧
    (startExamWithFullscreen true FullscreenOutcome.rejected
      unstartedState).returned = false ∧
    (startExamWithFullscreen true FullscreenOutcome.rejected
      unstartedState).state = unstartedState ∧
    (startExamWithFullscreen true FullscreenOutcome.rejected
      unstartedState).state.violations = -1 ∧
    (startExamWithFullscreen true FullscreenOutcome.resolved
      ((startExamWithFullscreen true FullscreenOutcome.rejected
        unstartedState).state)).state.violations = 0 ∧
    (startExamWithFullscreen true FullscreenOutcome.resolved
      ((startExamWithFullscreen true FullscreenOutcome.rejected
        unstartedState).state)).returned = true :=
  claim_C7_startExam_rejected unstartedState rfl

/-- Claim C8 (counterexample): a context-menu event while monitoring is
active is default-prevented but shows NO inline notice (its handler is the
bare `preventDefault`), refuting "every suppressed action yields an immediate
inline notice". -/
theorem claim_C8_counterexample :
    (dispatch ⟨3, true, true⟩ true false sampleEnv Signal.contextmenu
      activeStart).prevented = true ∧
    (dispatch ⟨3, true, true⟩ true false sampleEnv Signal.contextmenu
      activeStart).alerts = [] := by
  decide

/-- Claim C8 (amended): while monitoring is active, every suppressed action
(context menu, drag, selection, copy, paste, cut) is default-prevented every
time, unconditionally and with no debounce (any latch state), and never
changes the violation counter or invokes `onWarning`/`onFinishExam`; the
clipboard actions additionally yield an immediate inline notice, while
context menu, drag and selection are suppressed silently. -/
theorem claim_C8_amended (cfg : Config) (env : Env) (s : ExamState)
    (sec final : Bool)
    (helig : monitoringEligible sec final s.violations = true) :
    dispatch cfg sec final env Signal.contextmenu s = ⟨s, true, []⟩ ∧
    dispatch cfg sec final env Signal.dragstart s = ⟨s, true, []⟩ ∧
    dispatch cfg sec final env Signal.selectstart s = ⟨s, true, []⟩ ∧
    dispatch cfg sec final env Signal.copy s =
      ⟨s, true, [clipboardAlert "copy"]⟩ ∧
    dispatch cfg sec final env Signal.paste s =
      ⟨s, true, [clipboardAlert "paste"]⟩ ∧
    dispatch cfg sec final env Signal.cut s =
      ⟨s, true, [clipboardAlert "cut"]⟩ := by
  unfold dispatch
  rw [helig]
  simp

/-- Claim C8 (witness for the amended theorem): active monitoring with the
latch set (mid cool-down), showing suppression is not debounced. -/
theorem claim_C8_amended_witness :
    dispatch ⟨3, true, true⟩ true false sampleEnv Signal.contextmenu
      ⟨1, true, [], 0⟩ = ⟨⟨1, true, [], 0⟩, true, []⟩ ∧
    dispatch ⟨3, true, true⟩ true false sampleEnv Signal.dragstart
      ⟨1, true, [], 0⟩ = ⟨⟨1, true, [], 0⟩, true, []⟩ ∧
    dispatch ⟨3, true, true⟩ true false sampleEnv Signal.selectstart
      ⟨1, true, [], 0⟩ = ⟨⟨1, true, [], 0⟩, true, []⟩ ∧
    dispatch ⟨3, true, true⟩ true false sampleEnv Signal.copy
      ⟨1, true, [], 0⟩ = ⟨⟨1, true, [], 0⟩, true, [clipboardAlert "copy"]⟩ ∧
    dispatch ⟨3, true, true⟩ true false sampleEnv Signal.paste
      ⟨1, true, [], 0⟩ = ⟨⟨1, true, [], 0⟩, true, [clipboardAlert "paste"]⟩ ∧
    dispatch ⟨3, true, true⟩ true false sampleEnv Signal.cut
      ⟨1, true, [], 0⟩ = ⟨⟨1, true, [], 0⟩, true, [clipboardAlert "cut"]⟩ :=
  claim_C8_amended ⟨3, true, true⟩ sampleEnv ⟨1, true, [], 0⟩ true false
    (by decide)

/-- Claim C9: while monitoring is active (latch clear), a blur event runs the
blur handler; it records a "switched window" violation (incrementing the
counter) iff the document is in fullscreen, and a blur while not fullscreen
changes nothing at all. -/
theorem claim_C9_blur (cfg : Config) (sec final : Bool) (env : Env)
    (s : ExamState)
    (helig : monitoringEligible sec final s.violations = true)
    (hlatch : s.isHandlingViolation = false) :
    (dispatch cfg sec final env Signal.blur s).state = handleBlur cfg env s ∧
    (env.fullscreenElement = true →
      (dispatch cfg sec final env Signal.blur s).state =
        handleViolation cfg "switched window" s ∧
      (dispatch cfg sec final env Signal.blur s).state.violations =
        s.violations + 1) ∧
    (env.fullscreenElement = false →
      dispatch cfg sec final env Signal.blur s = ⟨s, false, []⟩) := by
  unfold dispatch
  rw [helig]
  refine ⟨rfl, fun hfs => ?_, fun hfs => ?_⟩
  · constructor
    · simp [handleBlur, hfs]
    · simp [handleBlur, hfs,
        handleViolation_violations cfg "switched window" s hlatch]
  · simp [handleBlur, hfs]

/-- Claim C9 (witness): fullscreen blur increments; the non-fullscreen part
holds vacuously at this environment. -/
theorem claim_C9_blur_witness :
    (dispatch ⟨3, true, true⟩ true false sampleEnv Signal.blur
      activeStart).state = handleBlur ⟨3, true, true⟩ sampleEnv activeStart ∧
    (sampleEnv.fullscreenElement = true →
      (dispatch ⟨3, true, true⟩ true false sampleEnv Signal.blur
        activeStart).state =
        handleViolation ⟨3, true, true⟩ "switched window" activeStart ∧
      (dispatch ⟨3, true, true⟩ true false sampleEnv Signal.blur
        activeStart).state.violations = activeStart.violations + 1) ∧
    (sampleEnv.fullscreenElement = false →
      dispatch ⟨3, true, true⟩ true false sampleEnv Signal.blur activeStart =
        ⟨activeStart, false, []⟩) :=
  claim_C9_blur ⟨3, true, true⟩ true false sampleEnv activeStart (by decide)
    rfl

/-- With both callbacks absent, a latch-free `handleViolation` call reduces
to the pure state update: counter incremented, latch set, logs untouched. -/
theorem handleViolation_no_callbacks (m : Int) (r : String) (s : ExamState)
    (h : s.isHandlingViolation = false) :
    handleViolation ⟨m, false, false⟩ r s =
      { s with isHandlingViolation := true,
               violations := s.violations + 1 } := by
  unfold handleViolation
  simp only [h, Bool.false_eq_true, if_false]
  split <;> rfl

/-- Claim C10: when `onWarning` and `onFinishExam` are both absent
(`undefined`, invoked via optional chaining), the handler still increments
the counter, still sets the latch (cleared later by the timer), performs no
callback invocation, and completes normally — it is a total function of the
state. -/
theorem claim_C10_missing_callbacks (m : Int) (r : String) (s : ExamState)
    (h : s.isHandlingViolation = false) :
    (handleViolation ⟨m, false, false⟩ r s).violations = s.violations + 1 ∧
    (handleViolation ⟨m, false, false⟩ r s).isHandlingViolation = true ∧
    (handleViolation ⟨m, false, false⟩ r s).warningLog = s.warningLog ∧
    (handleViolation ⟨m, false, false⟩ r s).finishCalls = s.finishCalls ∧
    (releaseLatch (handleViolation ⟨m, false, false⟩ r
      s)).isHandlingViolation = false := by
  rw [handleViolation_no_callbacks m r s h]
  exact ⟨rfl, rfl, rfl, rfl, rfl⟩

/-- Claim C10 (witness): a fourth violation (count passes `maxViolations`)
with both callbacks absent. -/
theorem claim_C10_missing_callbacks_witness :
    (handleViolation ⟨3, false, false⟩ "switched tabs"
      ⟨3, false, [], 0⟩).violations = (3 : Int) + 1 ∧
    (handleViolation ⟨3, false, false⟩ "switched tabs"
      ⟨3, false, [], 0⟩).isHandlingViolation = true ∧
    (handleViolation ⟨3, false, false⟩ "switched tabs"
      ⟨3, false, [], 0⟩).warningLog = [] ∧
    (handleViolation ⟨3, false, false⟩ "switched tabs"
      ⟨3, false, [], 0⟩).finishCalls = 0 ∧
    (releaseLatch (handleViolation ⟨3, false, false⟩ "switched tabs"
      ⟨3, false, [], 0⟩)).isHandlingViolation = false :=
  claim_C10_missing_callbacks 3 "switched tabs" ⟨3, false, [], 0⟩ rfl

end ExamSecurity
